import Mathlib

/-!
Verification of the SNMPv3 USM privacy layer in `puresnmp/priv.py`.

Bytes are modelled as `List Nat` (each element a byte value).  External
collaborators that are not part of the verified source file — the
`password_to_key` hasher, the DES-CBC cipher from `Crypto.Cipher`, the x690
PDU encoder and decoder — are passed in as explicit function parameters
(bundled in `Ext`), exactly as the spec treats them: black boxes behind
narrow interfaces.  The stateful salt generator is embedded by explicit
state passing: the generator state is the next value it will yield.
-/

set_option linter.unusedVariables false

namespace Puresnmp

/-- Embedding of `pad_packet(data, block_size=8)` from `priv.py`.  Note the
body of the source function uses the literal `8`, not the `block_size`
parameter; the embedding reproduces that faithfully. -/
def pad_packet (data : List Nat) (block_size : Nat) : List Nat :=
  let rest := data.length % 8
  if rest = 0 then data
  else
    let numpad := 8 - rest
    data ++ List.replicate numpad 0

/-- One advance of the generator state in `reference_saltpot`: after
yielding `salt`, the generator sets `salt += 1` and wraps to `0` when the
incremented value reaches `0xFFFFFFFF`. -/
def reference_saltpot_next (salt : Nat) : Nat :=
  let s := salt + 1
  if s = 0xFFFFFFFF then 0 else s

/-- Value yielded by the draw at position `n` (counting from 0) of a
`reference_saltpot` generator whose seed is `seed`. -/
def reference_saltpot_emit (seed : Nat) : Nat → Nat
  | 0 => seed
  | n + 1 => reference_saltpot_next (reference_saltpot_emit seed n)

/-- Big-endian 4-byte encoding, Python `v.to_bytes(4, "big")`.  The
divisors are the literal values of 2 ^ 24, 2 ^ 16 and 2 ^ 8. -/
def to_bytes_be4 (v : Nat) : List Nat :=
  [v / 16777216 % 256, v / 65536 % 256, v / 256 % 256, v % 256]

/-- Modelled from the spec: the security parameters block of
`puresnmp.adt` (that module is not part of the verified source).  The spec
says it holds at least `authoritative_engine_id`,
`authoritative_engine_boots` and `priv_params`; `otherSecFields` stands for
any remaining fields of the block, which privacy operations never touch. -/
structure SecurityParameters where
  authoritative_engine_id : List Nat
  authoritative_engine_boots : Nat
  priv_params : List Nat
  otherSecFields : Nat
deriving Repr, DecidableEq

/-- Payload of a message: either a structured (decrypted) scoped PDU or an
opaque encrypted byte blob (`OctetString`). -/
inductive SPdu (PDU : Type) where
  | plain (pdu : PDU)
  | blob (value : List Nat)
deriving Repr, DecidableEq

/-- Modelled from the spec: the message envelope of `puresnmp.adt` (not
part of the verified source).  The spec says it is an immutable value
holding at least a `scoped_pdu` field and an optional
`security_parameters` block; `otherFields` stands for the remaining
envelope fields, which privacy operations never touch. -/
structure Message (PDU : Type) where
  scoped_pdu : SPdu PDU
  security_parameters : Option SecurityParameters
  otherFields : Nat
deriving Repr, DecidableEq

/-- Error kinds surfaced by the privacy operations.  The source raises
`SnmpError` with distinct messages; `attributeError` models the Python
`AttributeError` raised when `self.saltpot` was never assigned. -/
inductive PrivError where
  | missingSecParams
  | unexpectedPlaintext
  | invalidLength
  | decryptFailed
  | decodeError
  | attributeError
deriving Repr, DecidableEq

/-- External collaborators of `priv.py`, treated as black boxes:
`hasher` is `password_to_key(hashlib.md5, 16)` applied to (key, engine id);
`cdesEncrypt key iv data` and `cdesDecrypt key iv data` are
`CDES.new(key, MODE_CBC, IV=iv).encrypt/decrypt(data)`;
`encodeSPdu` is `bytes(scoped_pdu)` (x690 serialisation);
`decodePDU` is `ScopedPDU.decode` (returning `none` on a decode failure). -/
structure Ext (PDU : Type) where
  hasher : List Nat → List Nat → List Nat
  cdesEncrypt : List Nat → List Nat → List Nat → List Nat
  cdesDecrypt : List Nat → List Nat → List Nat → List Nat
  encodeSPdu : SPdu PDU → List Nat
  decodePDU : List Nat → Option PDU

/-- Embedding of `DES.encrypt_data(self, key, message)`.  The generator
`self.saltpot` is passed as the explicit state `saltpot` (the next value it
would yield); the result carries the new generator state.  The source draws
the salt once for the wire salt and then draws and discards a second value,
so the returned state is two advances past the input state. -/
def encrypt_data {PDU : Type} (ext : Ext PDU) (saltpot : Nat)
    (key : List Nat) (message : Message PDU) :
    Except PrivError (Message PDU × Nat) :=
  match message.security_parameters with
  | none => Except.error PrivError.missingSecParams
  | some sp =>
    let private_privacy_key := ext.hasher key sp.authoritative_engine_id
    let des_key := private_privacy_key.take 8
    let pre_iv := private_privacy_key.drop 8
    let local_salt := saltpot
    let saltpot1 := reference_saltpot_next saltpot
    let engine_boots := sp.authoritative_engine_boots
    let salt := to_bytes_be4 (engine_boots &&& 0xFF) ++
      to_bytes_be4 (local_salt &&& 0xFF)
    let init_vector := List.zipWith Nat.xor salt pre_iv
    let message1 : Message PDU :=
      { message with security_parameters := some { sp with priv_params := salt } }
    let saltpot2 := reference_saltpot_next saltpot1
    let padded := pad_packet (ext.encodeSPdu message1.scoped_pdu) 8
    let encrypted := ext.cdesEncrypt des_key init_vector padded
    let message2 : Message PDU := { message1 with scoped_pdu := SPdu.blob encrypted }
    Except.ok (message2, saltpot2)

/-- Embedding of `DES.decrypt_data(self, decrypt_key, message)`.  The
checks appear in source order: the scoped PDU must be an opaque blob, its
length must be a multiple of 8, security parameters must be present; then
the key is localised, the IV reconstructed from `priv_params`, the payload
decrypted, the empty-output sentinel checked, and the plaintext decoded. -/
def decrypt_data {PDU : Type} (ext : Ext PDU) (decrypt_key : List Nat)
    (message : Message PDU) : Except PrivError (Message PDU) :=
  match message.scoped_pdu with
  | SPdu.plain _ => Except.error PrivError.unexpectedPlaintext
  | SPdu.blob v =>
    if v.length % 8 ≠ 0 then Except.error PrivError.invalidLength
    else
      match message.security_parameters with
      | none => Except.error PrivError.missingSecParams
      | some sp =>
        let private_privacy_key := ext.hasher decrypt_key sp.authoritative_engine_id
        let des_key := private_privacy_key.take 8
        let pre_iv := private_privacy_key.drop 8
        let salt := sp.priv_params
        let init_vector := List.zipWith Nat.xor salt pre_iv
        let decrypted := ext.cdesDecrypt des_key init_vector v
        if v ≠ [] ∧ decrypted = [] then Except.error PrivError.decryptFailed
        else
          match ext.decodePDU decrypted with
          | none => Except.error PrivError.decodeError
          | some pdu => Except.ok { message with scoped_pdu := SPdu.plain pdu }

/-- Registry of privacy protocols, a mapping from identifier strings to
implementation classes (`Priv.__registry`), initially empty. -/
def emptyRegistry {C : Type} : String → Option C := fun _ => none

/-- Embedding of `Priv.__init_subclass__`: a subclass without an
`IDENTIFIER` attribute (modelled as `none`) is not registered; otherwise
the registry entry for its identifier is assigned to the class,
`Priv.__registry[cls.IDENTIFIER] = cls`. -/
def initSubclass {C : Type} (registry : String → Option C)
    (identifier : Option String) (cls : C) : String → Option C :=
  match identifier with
  | none => registry
  | some i => fun s => if s = i then some cls else registry s

/-- State of a `DES` instance: `saltpot = some s` means the attribute
`self.saltpot` is assigned and its generator state is `s`; `none` means
the attribute was never assigned. -/
structure DESState where
  saltpot : Option Nat
deriving Repr, DecidableEq

/-- Embedding of `DES.__init__(self, saltpot=None)`: only when the
argument is `None` does the constructor assign `self.saltpot`, to a
freshly seeded `reference_saltpot` (its random seed modelled by
`freshSeed`); a supplied generator (`some g`) is ignored and the attribute
stays unassigned. -/
def DES_init (freshSeed : Nat) (saltpot : Option Nat) : DESState :=
  match saltpot with
  | none => { saltpot := some freshSeed }
  | some _ => { saltpot := none }

/-- Instance-level `encrypt_data`: the security-parameters check runs
first (as in the source); the access `next(self.saltpot)` then raises
`AttributeError` when the attribute was never assigned, and otherwise the
computation proceeds as in `encrypt_data`, updating the stored state. -/
def DESState.encrypt_data {PDU : Type} (ext : Ext PDU) (st : DESState)
    (key : List Nat) (message : Message PDU) :
    Except PrivError (Message PDU × DESState) :=
  match message.security_parameters with
  | none => Except.error PrivError.missingSecParams
  | some _ =>
    match st.saltpot with
    | none => Except.error PrivError.attributeError
    | some pot =>
      (Puresnmp.encrypt_data ext pot key message).map
        (fun r => (r.1, { saltpot := some r.2 }))

/-!
Concrete instantiations used by the witness theorems.
-/

/-- Concrete external collaborators over `PDU := Nat`: the cipher is the
identity (which is length preserving and inverted by itself), the encoder
writes eight copies of the PDU value, and the decoder reads the first
byte back. -/
def extId : Ext Nat where
  hasher := fun _ _ => List.range 16
  cdesEncrypt := fun _ _ d => d
  cdesDecrypt := fun _ _ d => d
  encodeSPdu := fun s =>
    match s with
    | SPdu.plain p => List.replicate 8 (p % 256)
    | SPdu.blob v => v
  decodePDU := fun l => l.head?

/-- Concrete security parameters for witnesses. -/
def spW : SecurityParameters :=
  { authoritative_engine_id := [1, 2]
    authoritative_engine_boots := 5
    priv_params := []
    otherSecFields := 3 }

/-- Concrete message with a plain scoped PDU and security parameters. -/
def mW : Message Nat :=
  { scoped_pdu := SPdu.plain 7, security_parameters := some spW, otherFields := 9 }

/-- Concrete message lacking security parameters. -/
def mNoSec : Message Nat :=
  { scoped_pdu := SPdu.plain 7, security_parameters := none, otherFields := 0 }

/-- Concrete blob message of valid length lacking security parameters. -/
def mBlob8NoSec : Message Nat :=
  { scoped_pdu := SPdu.blob (List.replicate 8 0), security_parameters := none
    otherFields := 0 }

/-- Concrete blob message of invalid length 9. -/
def mBlob9 : Message Nat :=
  { scoped_pdu := SPdu.blob (List.replicate 9 0), security_parameters := some spW
    otherFields := 0 }

/-- Security parameters of the result of encrypting `mW` with `extId`,
key `[5]` and salt state 1. -/
def spEncW : SecurityParameters :=
  { authoritative_engine_id := [1, 2]
    authoritative_engine_boots := 5
    priv_params := [0, 0, 0, 5, 0, 0, 0, 1]
    otherSecFields := 3 }

/-- Result envelope of encrypting `mW` with `extId`, key `[5]` and salt
state 1. -/
def mEncW : Message Nat :=
  { scoped_pdu := SPdu.blob [7, 7, 7, 7, 7, 7, 7, 7]
    security_parameters := some spEncW
    otherFields := 9 }

/-- Result envelope of decrypting `mEncW` with `extId` and key `[5]`. -/
def mDecW : Message Nat :=
  { scoped_pdu := SPdu.plain 7
    security_parameters := some spEncW
    otherFields := 9 }

/-!
Supporting lemmas.
-/

/-- Padding with the default block size always yields a multiple of 8. -/
theorem pad_packet_length_mod_eight (data : List Nat) :
    (pad_packet data 8).length % 8 = 0 := by
  unfold pad_packet
  dsimp only
  split
  · next h => simpa using h
  · simp only [List.length_append, List.length_replicate]
    omega

/-- The low-byte mask composed with 4-byte big-endian encoding produces
three zero bytes followed by the value modulo 256. -/
theorem to_bytes_be4_land_255 (x : Nat) :
    to_bytes_be4 (x &&& 0xFF) = [0, 0, 0, x % 256] := by
  have h : x &&& 0xFF = x % 256 := by
    have hmask := Nat.and_pow_two_sub_one_eq_mod x 8
    norm_num at hmask
    exact hmask
  unfold to_bytes_be4
  rw [h]
  simp only [List.cons.injEq]
  exact ⟨by omega, by omega, by omega, by omega, trivial⟩

/-- Bound preservation of the salt generator state: a state at most
0xFFFFFFFE only ever yields values at most 0xFFFFFFFE. -/
theorem reference_saltpot_emit_le (seed n : Nat) (h : seed ≤ 0xFFFFFFFE) :
    reference_saltpot_emit seed n ≤ 0xFFFFFFFE := by
  induction n with
  | zero => exact h
  | succ n ih =>
    simp only [reference_saltpot_emit, reference_saltpot_next]
    split <;> omega

/-- Arithmetic form of one generator advance for in-range states. -/
theorem reference_saltpot_next_eq (pot : Nat) (h : pot ≤ 0xFFFFFFFE) :
    reference_saltpot_next pot = (pot + 1) % 0xFFFFFFFF := by
  unfold reference_saltpot_next
  dsimp only
  split <;> omega

/-- Arithmetic form of two generator advances for in-range states. -/
theorem reference_saltpot_next_next (pot : Nat) (h : pot ≤ 0xFFFFFFFE) :
    reference_saltpot_next (reference_saltpot_next pot) = (pot + 2) % 0xFFFFFFFF := by
  have h2 : (pot + 1) % 0xFFFFFFFF ≤ 0xFFFFFFFE := by omega
  rw [reference_saltpot_next_eq pot h, reference_saltpot_next_eq _ h2]
  omega

/-- Characterisation of a successful `encrypt_data` call: with security
parameters present, the result is the envelope with the wire salt recorded
in `priv_params`, the scoped PDU replaced by the ciphertext blob, and the
generator advanced twice. -/
theorem encrypt_data_spec {PDU : Type} (ext : Ext PDU) (pot : Nat) (key : List Nat)
    (m : Message PDU) (sp : SecurityParameters)
    (hsp : m.security_parameters = some sp) :
    encrypt_data ext pot key m = Except.ok
      (Message.mk
        (SPdu.blob (ext.cdesEncrypt
          ((ext.hasher key sp.authoritative_engine_id).take 8)
          (List.zipWith Nat.xor
            (to_bytes_be4 (sp.authoritative_engine_boots &&& 0xFF) ++
              to_bytes_be4 (pot &&& 0xFF))
            ((ext.hasher key sp.authoritative_engine_id).drop 8))
          (pad_packet (ext.encodeSPdu m.scoped_pdu) 8)))
        (some (SecurityParameters.mk sp.authoritative_engine_id
          sp.authoritative_engine_boots
          (to_bytes_be4 (sp.authoritative_engine_boots &&& 0xFF) ++
            to_bytes_be4 (pot &&& 0xFF))
          sp.otherSecFields))
        m.otherFields,
      reference_saltpot_next (reference_saltpot_next pot)) := by
  simp only [encrypt_data, hsp]

/-- Characterisation of a successful `decrypt_data` call: with a blob
payload of valid length, security parameters present, the empty-output
guard passing and the decoder succeeding, the result is the input envelope
with the scoped PDU replaced by the decoded plaintext. -/
theorem decrypt_data_spec {PDU : Type} (ext : Ext PDU) (key : List Nat)
    (m : Message PDU) (v : List Nat) (sp : SecurityParameters) (pdu : PDU)
    (hpdu : m.scoped_pdu = SPdu.blob v)
    (hsp : m.security_parameters = some sp)
    (hlen : v.length % 8 = 0)
    (hguard : ¬(v ≠ [] ∧ ext.cdesDecrypt ((ext.hasher key sp.authoritative_engine_id).take 8)
        (List.zipWith Nat.xor sp.priv_params ((ext.hasher key sp.authoritative_engine_id).drop 8)) v = []))
    (hdecode : ext.decodePDU (ext.cdesDecrypt ((ext.hasher key sp.authoritative_engine_id).take 8)
        (List.zipWith Nat.xor sp.priv_params ((ext.hasher key sp.authoritative_engine_id).drop 8)) v) = some pdu) :
    decrypt_data ext key m = Except.ok { m with scoped_pdu := SPdu.plain pdu } := by
  simp only [decrypt_data, hpdu, hsp]
  simp [hlen, hguard, hdecode]

/-!
Claim theorems.
-/

/-- C4: the salt sequencer, seeded in [1, 0xFFFFFFFE], yields successive
values that increase by exactly 1 modulo the 0xFFFFFFFF wrap, and never
emits 0xFFFFFFFF. -/
theorem reference_saltpot_monotone (seed n : Nat)
    (h1 : 1 ≤ seed) (h2 : seed ≤ 0xFFFFFFFE) :
    reference_saltpot_emit seed n ≠ 0xFFFFFFFF ∧
    reference_saltpot_emit seed (n + 1) =
      (reference_saltpot_emit seed n + 1) % 0xFFFFFFFF := by
  have hle := reference_saltpot_emit_le seed n h2
  constructor
  · omega
  · simp only [reference_saltpot_emit, reference_saltpot_next]
    split <;> omega

/-- Witness for C4 at seed 5, position 3. -/
theorem reference_saltpot_monotone_witness :
    reference_saltpot_emit 5 3 ≠ 0xFFFFFFFF ∧
    reference_saltpot_emit 5 4 = (reference_saltpot_emit 5 3 + 1) % 0xFFFFFFFF :=
  reference_saltpot_monotone 5 3 (by decide) (by decide)

/-- C3 counterexample: registering a second implementation under the
identifier "des" is not rejected — the lookup afterwards returns the
second implementation, not the first. -/
theorem initSubclass_overwrites :
    initSubclass (initSubclass (emptyRegistry : String → Option Nat) (some "des") 0)
      (some "des") 1 "des" = some 1 ∧
    initSubclass (initSubclass (emptyRegistry : String → Option Nat) (some "des") 0)
      (some "des") 1 "des" ≠ some 0 := by
  constructor <;> simp [initSubclass]

/-- C3 amended: a second registration under an already-registered
identifier is accepted and overwrites the first; the registry resolves
every identifier to its most recent registration. -/
theorem initSubclass_last_registration_wins {C : Type} (registry : String → Option C)
    (i : String) (a b : C) :
    initSubclass (initSubclass registry (some i) a) (some i) b i = some b := by
  simp [initSubclass]

/-- C2 code-bug evaluation: with block_size 16 and data of length 8, the
code returns the data unchanged even though its length is not a multiple
of 16 — the body pads against the literal 8 and ignores `block_size`,
contradicting the function docstring and the claim. -/
theorem pad_packet_ignores_block_size :
    pad_packet (List.replicate 8 1) 16 = List.replicate 8 1 ∧
    (pad_packet (List.replicate 8 1) 16).length % 16 ≠ 0 := by
  constructor
  · rfl
  · decide

/-- C7: when security parameters are absent, `encrypt_data` fails with the
missing-security-parameters error, and `decrypt_data` (once its
ciphertext-shape checks pass) fails likewise; no envelope is returned. -/
theorem missing_security_parameters (PDU : Type) (ext : Ext PDU) (pot : Nat)
    (key : List Nat) (m md : Message PDU) (v : List Nat)
    (h1 : m.security_parameters = none)
    (h2 : md.security_parameters = none)
    (h3 : md.scoped_pdu = SPdu.blob v)
    (h4 : v.length % 8 = 0) :
    encrypt_data ext pot key m = Except.error PrivError.missingSecParams ∧
    decrypt_data ext key md = Except.error PrivError.missingSecParams := by
  constructor
  · simp only [encrypt_data, h1]
  · simp only [decrypt_data, h3, h2]
    simp [h4]

/-- Witness for C7 on concrete messages without security parameters. -/
theorem missing_security_parameters_witness :
    encrypt_data extId 1 [5] mNoSec = Except.error PrivError.missingSecParams ∧
    decrypt_data extId [5] mBlob8NoSec = Except.error PrivError.missingSecParams :=
  missing_security_parameters Nat extId 1 [5] mNoSec mBlob8NoSec
    (List.replicate 8 0) rfl rfl rfl (by decide)

/-- C8: decrypting a blob whose length is not a multiple of 8 fails with
the malformed-ciphertext error; the result does not depend on the key,
the hasher or the cipher (all quantified), so the failure occurs before
any key derivation or cipher invocation. -/
theorem decrypt_invalid_length (PDU : Type) (ext : Ext PDU) (key : List Nat)
    (m : Message PDU) (v : List Nat)
    (h1 : m.scoped_pdu = SPdu.blob v) (h2 : v.length % 8 ≠ 0) :
    decrypt_data ext key m = Except.error PrivError.invalidLength := by
  simp only [decrypt_data, h1]
  simp [h2]

/-- Witness for C8 on a blob of length 9. -/
theorem decrypt_invalid_length_witness :
    decrypt_data extId [5] mBlob9 = Except.error PrivError.invalidLength :=
  decrypt_invalid_length Nat extId [5] mBlob9 (List.replicate 9 0) rfl (by decide)

/-- C10: constructing a DES instance with a supplied (non-None) salt
generator ignores it — the result is the same whatever generator is
supplied, the saltpot attribute is unassigned, no encrypt call ever
succeeds, and any call that reaches the salt draw (security parameters
present) fails with the attribute error. -/
theorem des_init_ignores_saltpot (PDU : Type) (ext : Ext PDU)
    (seed g : Nat) (key : List Nat) (m : Message PDU) :
    (∀ g2 : Nat, DES_init seed (some g) = DES_init seed (some g2)) ∧
    (DES_init seed (some g)).saltpot = none ∧
    (∀ r, DESState.encrypt_data ext (DES_init seed (some g)) key m ≠ Except.ok r) ∧
    (m.security_parameters ≠ none →
      DESState.encrypt_data ext (DES_init seed (some g)) key m =
        Except.error PrivError.attributeError) := by
  refine ⟨fun g2 => rfl, rfl, ?_, ?_⟩
  · intro r
    cases hsp : m.security_parameters with
    | none => simp [DESState.encrypt_data, hsp]
    | some sp => simp [DESState.encrypt_data, hsp, DES_init]
  · intro hne
    cases hsp : m.security_parameters with
    | none => exact absurd hsp hne
    | some sp => simp [DESState.encrypt_data, hsp, DES_init]

/-- Witness for C10 with a concrete supplied generator. -/
theorem des_init_ignores_saltpot_witness :
    (DES_init 5 (some 17)).saltpot = none ∧
    DESState.encrypt_data extId (DES_init 5 (some 17)) [5] mW =
      Except.error PrivError.attributeError :=
  ⟨(des_init_ignores_saltpot Nat extId 5 17 [5] mW).2.1,
   (des_init_ignores_saltpot Nat extId 5 17 [5] mW).2.2.2 (by decide)⟩

/-- C5: a successful `encrypt_data` records in the returned envelope a
`priv_params` salt of exactly 8 bytes, the low byte of
`authoritative_engine_boots` big-endian in 4 bytes concatenated with the
low byte of the drawn local salt big-endian in 4 bytes. -/
theorem encrypt_wire_salt (PDU : Type) (ext : Ext PDU) (pot : Nat)
    (key : List Nat) (m : Message PDU) (sp : SecurityParameters)
    (m2 : Message PDU) (pot2 : Nat)
    (hsp : m.security_parameters = some sp)
    (henc : encrypt_data ext pot key m = Except.ok (m2, pot2)) :
    ∃ sp2, m2.security_parameters = some sp2 ∧
      sp2.priv_params =
        [0, 0, 0, sp.authoritative_engine_boots % 256] ++ [0, 0, 0, pot % 256] ∧
      sp2.priv_params.length = 8 := by
  rw [encrypt_data_spec ext pot key m sp hsp] at henc
  simp only [Except.ok.injEq, Prod.mk.injEq] at henc
  obtain ⟨hm, hp⟩ := henc
  subst hm
  refine ⟨_, rfl, ?_, ?_⟩
  · rw [to_bytes_be4_land_255, to_bytes_be4_land_255]
  · rfl

/-- Witness for C5 on the concrete encryption of `mW`. -/
theorem encrypt_wire_salt_witness :
    ∃ sp2, mEncW.security_parameters = some sp2 ∧
      sp2.priv_params = [0, 0, 0, spW.authoritative_engine_boots % 256] ++
        [0, 0, 0, 1 % 256] ∧
      sp2.priv_params.length = 8 :=
  encrypt_wire_salt Nat extId 1 [5] mW spW mEncW 3 rfl rfl

/-- C6: every successful `encrypt_data` call advances the salt sequencer
exactly twice (one value used for the wire salt, a second drawn and
discarded), so the state left for the next encryption — the local salt it
will use — is the used salt plus 2 modulo the sequencer wrap. -/
theorem encrypt_advances_saltpot_twice (PDU : Type) (ext : Ext PDU) (pot : Nat)
    (key : List Nat) (m m2 : Message PDU) (pot2 : Nat)
    (hle : pot ≤ 0xFFFFFFFE)
    (henc : encrypt_data ext pot key m = Except.ok (m2, pot2)) :
    pot2 = reference_saltpot_next (reference_saltpot_next pot) ∧
    pot2 = (pot + 2) % 0xFFFFFFFF := by
  cases hsp : m.security_parameters with
  | none => simp [encrypt_data, hsp] at henc
  | some sp =>
    rw [encrypt_data_spec ext pot key m sp hsp] at henc
    simp only [Except.ok.injEq, Prod.mk.injEq] at henc
    obtain ⟨hm, hp⟩ := henc
    refine ⟨hp.symm, ?_⟩
    rw [← hp, reference_saltpot_next_next pot hle]

/-- Witness for C6 on the concrete encryption of `mW` from salt state 1. -/
theorem encrypt_advances_saltpot_twice_witness :
    (3 : Nat) = reference_saltpot_next (reference_saltpot_next 1) ∧
    (3 : Nat) = (1 + 2) % 0xFFFFFFFF :=
  encrypt_advances_saltpot_twice Nat extId 1 [5] mW mEncW 3 (by decide) rfl

/-- C9: neither operation mutates its input (the embedding is pure and a
failure returns no envelope); on success, encryption preserves every
envelope field except the scoped PDU and, inside the security parameters,
every field except `priv_params`; decryption preserves everything except
the scoped PDU. -/
theorem privacy_frame (PDU : Type) (ext : Ext PDU) (pot : Nat) (key : List Nat)
    (m : Message PDU) :
    (∀ m2 pot2, encrypt_data ext pot key m = Except.ok (m2, pot2) →
      m2.otherFields = m.otherFields ∧
      ∃ sp sp2, m.security_parameters = some sp ∧
        m2.security_parameters = some sp2 ∧
        sp2.authoritative_engine_id = sp.authoritative_engine_id ∧
        sp2.authoritative_engine_boots = sp.authoritative_engine_boots ∧
        sp2.otherSecFields = sp.otherSecFields) ∧
    (∀ m2, decrypt_data ext key m = Except.ok m2 →
      m2.otherFields = m.otherFields ∧
      m2.security_parameters = m.security_parameters) := by
  constructor
  · intro m2 pot2 henc
    cases hsp : m.security_parameters with
    | none => simp [encrypt_data, hsp] at henc
    | some sp =>
      rw [encrypt_data_spec ext pot key m sp hsp] at henc
      simp only [Except.ok.injEq, Prod.mk.injEq] at henc
      obtain ⟨hm, hp⟩ := henc
      subst hm
      refine ⟨rfl, sp, _, rfl, rfl, rfl, rfl, rfl⟩
  · intro m2 hdec
    cases hpdu : m.scoped_pdu with
    | plain p => simp [decrypt_data, hpdu] at hdec
    | blob v =>
      by_cases hv : v.length % 8 ≠ 0
      · simp [decrypt_data, hpdu, hv] at hdec
      · cases hsp : m.security_parameters with
        | none => simp [decrypt_data, hpdu, hv, hsp] at hdec
        | some sp =>
          simp only [decrypt_data, hpdu, hv, hsp, if_false, ite_not] at hdec
          split at hdec
          · simp at hdec
          · split at hdec
            · simp at hdec
            · simp only [Except.ok.injEq] at hdec
              subst hdec
              exact ⟨rfl, rfl⟩

/-- Witness for C9 on the concrete encryption of `mW` and decryption of
`mEncW`. -/
theorem privacy_frame_witness :
    (mEncW.otherFields = mW.otherFields ∧
      ∃ sp sp2, mW.security_parameters = some sp ∧
        mEncW.security_parameters = some sp2 ∧
        sp2.authoritative_engine_id = sp.authoritative_engine_id ∧
        sp2.authoritative_engine_boots = sp.authoritative_engine_boots ∧
        sp2.otherSecFields = sp.otherSecFields) ∧
    (mDecW.otherFields = mEncW.otherFields ∧
      mDecW.security_parameters = mEncW.security_parameters) :=
  ⟨(privacy_frame Nat extId 1 [5] mW).1 mEncW 3 rfl,
   (privacy_frame Nat extId 1 [5] mEncW).2 mDecW rfl⟩

/-- C1: round trip — for any key, engine id, boot counter and plaintext
scoped PDU, decrypting the result of encrypting recovers an envelope whose
scoped PDU is the original plaintext.  The external cipher is assumed
length preserving and invertible, and the external decoder is assumed to
recover a PDU from its zero-padded serialisation (the self-describing
encoding property the spec relies on). -/
theorem encrypt_decrypt_roundtrip (PDU : Type) (ext : Ext PDU) (key : List Nat)
    (pot : Nat) (m : Message PDU) (P : PDU) (sp : SecurityParameters)
    (hpdu : m.scoped_pdu = SPdu.plain P)
    (hsp : m.security_parameters = some sp)
    (hclen : ∀ k iv d, (ext.cdesEncrypt k iv d).length = d.length)
    (hcinv : ∀ k iv d, ext.cdesDecrypt k iv (ext.cdesEncrypt k iv d) = d)
    (hdecode : ext.decodePDU (pad_packet (ext.encodeSPdu (SPdu.plain P)) 8) = some P) :
    ∃ m2 pot2, encrypt_data ext pot key m = Except.ok (m2, pot2) ∧
      ∃ m3, decrypt_data ext key m2 = Except.ok m3 ∧
        m3.scoped_pdu = SPdu.plain P := by
  have he := encrypt_data_spec ext pot key m sp hsp
  rw [hpdu] at he
  refine ⟨_, _, he, _, decrypt_data_spec ext key _ _ _ P rfl rfl ?_ ?_ ?_, rfl⟩
  · rw [hclen]
    exact pad_packet_length_mod_eight _
  · rintro ⟨hne, hempty⟩
    rw [hcinv] at hempty
    exact hne (List.length_eq_zero.mp (by rw [hclen, hempty]; rfl))
  · rw [hcinv]
    exact hdecode

/-- Witness for C1 on the concrete message `mW` with the identity
cipher. -/
theorem encrypt_decrypt_roundtrip_witness :
    ∃ m2 pot2, encrypt_data extId 1 [5] mW = Except.ok (m2, pot2) ∧
      ∃ m3, decrypt_data extId [5] m2 = Except.ok m3 ∧
        m3.scoped_pdu = SPdu.plain 7 :=
  encrypt_decrypt_roundtrip Nat extId [5] 1 mW 7 spW rfl rfl
    (fun _ _ _ => rfl) (fun _ _ _ => rfl) rfl

end Puresnmp
